import Mathlib

/-
  Shallow embedding of the mcp-demo repository (src/client.py,
  src/config_loader.py, src/database_server_factory.py) and proofs about it.

  Python dicts are embedded as association lists in insertion order;
  dict assignment `d[k] = v` is `dictInsert`, lookup `d.get(k)` / `k in d`
  is `dictGet`.  A raised-and-caught Python exception is an `Except.error`
  value.  Async methods that return a value and leave `self` unchanged are
  embedded as state-passing functions `Manager → result × Manager`.
-/

namespace Mcp

/-- Lookup in an insertion-ordered dict (first binding wins). -/
def dictGet {α : Type} (k : String) : List (String × α) → Option α
  | [] => none
  | (k1, v) :: rest => if k1 = k then some v else dictGet k rest

/-- Dict assignment `d[k] = v`: rebind in place if present, append if not. -/
def dictInsert {α : Type} (k : String) (v : α) : List (String × α) → List (String × α)
  | [] => [(k, v)]
  | (k1, v1) :: rest => if k1 = k then (k, v) :: rest else (k1, v1) :: dictInsert k v rest

/-- Behaviour of one connected MCP session (the `ClientSession` object stored
in `MCPDataCenterManager.sessions`): the outcome of each protocol call it can
be asked to perform.  `Except.error` models a raised exception. -/
structure Session where
  list_resources : Except String (List String)
  read_resource : String → Except String (String × String)
  call_tool : String → List (String × String) → Except String String

/-- Resources entered into the Manager's `AsyncExitStack` by
`add_data_source`: the stdio pipes context and the client-session context. -/
inductive Resource where
  | pipes (name : String)
  | clientSession (name : String)
deriving DecidableEq

/-- State of `MCPDataCenterManager` (src/client.py:11-14): the session dict
and the `AsyncExitStack` of entered contexts (most recent first). -/
structure Manager where
  sessions : List (String × Session)
  exit_stack : List Resource

/-- Outcomes of the three awaited steps of `add_data_source`
(src/client.py:23-47): entering `stdio_client(server_params)`, entering
`ClientSession(read, write)`, and `session.initialize()`; plus the behaviour
of the resulting session. -/
structure LaunchSpec where
  spawn : Except String Unit
  enter_session : Except String Unit
  init : Except String Unit
  session : Session

/-- Boolean success test for an `Except` outcome. -/
def exOk {ε α : Type} : Except ε α → Bool
  | .ok _ => true
  | .error _ => false

/-- Embedding of `MCPDataCenterManager.add_data_source` (src/client.py:23-47):
each `enter_async_context` pushes its resource onto the exit stack before the
next step; `session.initialize()` runs after both contexts are entered; on
success the session is stored under `name` and True is returned; any raised
exception is caught, logged and False is returned. -/
def add_data_source (m : Manager) (name : String) (spec : LaunchSpec) : Bool × Manager :=
  match spec.spawn with
  | .error _ => (false, m)
  | .ok _ =>
    let m1 : Manager := { m with exit_stack := Resource.pipes name :: m.exit_stack }
    match spec.enter_session with
    | .error _ => (false, m1)
    | .ok _ =>
      let m2 : Manager := { m1 with exit_stack := Resource.clientSession name :: m1.exit_stack }
      match spec.init with
      | .error _ => (false, m2)
      | .ok _ => (true, { m2 with sessions := dictInsert name spec.session m2.sessions })

/-- Embedding of `MCPDataCenterManager.list_all_resources` (src/client.py:49-59):
iterate the session dict; on success store the result under the session name;
a raised exception is caught and logged and the loop continues, storing
nothing for that name. -/
def list_all_resources (m : Manager) : List (String × List String) × Manager :=
  (m.sessions.foldl
    (fun all_resources p =>
      match p.2.list_resources with
      | .ok resources => dictInsert p.1 resources all_resources
      | .error _ => all_resources)
    [], m)

/-- Embedding of `MCPDataCenterManager.query_resource` (src/client.py:61-72):
unknown source name yields None; a raised exception during `read_resource` is
caught and yields None; otherwise the content component is returned. -/
def query_resource (m : Manager) (source_name resource_uri : String) :
    Option String × Manager :=
  (match dictGet source_name m.sessions with
   | some session =>
     match session.read_resource resource_uri with
     | .ok (content, _) => some content
     | .error _ => none
   | none => none, m)

/-- Embedding of `MCPDataCenterManager.call_tool` (src/client.py:74-85): same
routing and exception handling as `query_resource`. -/
def call_tool (m : Manager) (source_name tool_name : String)
    (arguments : List (String × String)) : Option String × Manager :=
  (match dictGet source_name m.sessions with
   | some session =>
     match session.call_tool tool_name arguments with
     | .ok result => some result
     | .error _ => none
   | none => none, m)

/-- Embedding of `MCPDataCenterManager.cross_source_query` (src/client.py:87-94):
for each (source, uri) pair call `query_resource`; the result is stored only
when `if content:` holds, i.e. content is neither None nor an empty string. -/
def cross_source_query (m : Manager) (queries : List (String × String)) :
    List (String × String) × Manager :=
  (queries.foldl
    (fun results q =>
      match (query_resource m q.1 q.2).1 with
      | some content => if content = "" then results else dictInsert q.1 content results
      | none => results)
    [], m)

/-- Modelled from the spec: `MCPDataCenterManager.health_check` is invoked by
`ImprovedDataCenter.health_check` (src/server_launcher.py:85-96) and by
src/test_datacenter.py:37, but no such method is defined in src/client.py.
Spec section 4.1: for each Session, issue a cheap capability probe
(list-resources); any error maps to "unhealthy", success to "healthy";
never throws. -/
def health_check (m : Manager) : List (String × String) × Manager :=
  (m.sessions.foldl
    (fun health p =>
      match p.2.list_resources with
      | .ok _ => dictInsert p.1 "healthy" health
      | .error _ => dictInsert p.1 "unhealthy" health)
    [], m)

/-- Scheduling events observable while a fan-out loop runs: issuing the
per-source protocol call, and that call completing (returning or raising). -/
inductive Event where
  | issue (source : String)
  | complete (source : String)
deriving DecidableEq

/-- Whether an event is the issuing of a call. -/
def isIssue : Event → Bool
  | .issue _ => true
  | .complete _ => false

/-- Trace of the fan-out loop of `list_all_resources` / `health_check`
(src/client.py:52-58): `resources = await session.list_resources()` inside a
`for` loop issues one call and suspends until it completes before the loop
advances to the next session; there is no `gather`/`create_task`. -/
def serialTrace : List (String × Session) → List Event
  | [] => []
  | p :: rest => Event.issue p.1 :: Event.complete p.1 :: serialTrace rest

/-- Trace of the `cross_source_query` loop (src/client.py:90-93): each
`await self.query_resource(...)` completes before the next pair is issued. -/
def serialQueryTrace : List (String × String) → List Event
  | [] => []
  | q :: rest => Event.issue q.1 :: Event.complete q.1 :: serialQueryTrace rest

/-- Formalisation of the spec's concurrency contract (spec section 5): a
fan-out issues all per-source calls first and only then joins the outcomes,
so the trace is all issue events followed by all completion events. -/
def concurrentShape (t : List Event) : Prop :=
  t = t.filter isIssue ++ t.filter (fun e => !isIssue e)

/-- Embedding of `DatabaseConfig` (src/config_loader.py:10-24).  Values of
`Dict[str, Any]` fields are embedded as insertion-ordered string dicts; the
six optional fields default to `none` like the dataclass defaults. -/
structure DatabaseConfig where
  name : String
  type : String
  enabled : Bool
  description : String
  connection : List (String × String)
  settings : List (String × String)
  tables : Option (List String) := none
  collections : Option (List String) := none
  indices : Option (List String) := none
  endpoints : Option (List (List (String × String))) := none
  headers : Option (List (String × String)) := none
  schemas : Option (List String) := none
deriving DecidableEq

/-- Embedding of `ServerConfig` (src/config_loader.py:26-31). -/
structure ServerConfig where
  datasource : String
  port : Int
  log_level : String
deriving DecidableEq

/-- Embedding of `DataCenterConfig` (src/config_loader.py:33-42). -/
structure DataCenterConfig where
  datacenter : List (String × String)
  datasources : List DatabaseConfig
  servers : List ServerConfig
  management : List (String × String)
  security : List (String × String)
  logging : List (String × String)
  monitoring : List (String × String)
deriving DecidableEq

/-- One entry of the parsed YAML `datasources` list as `load_config` reads it:
`none` means the key is absent (or null), so `.get` returns Python None. -/
structure RawDatasource where
  name : Option String
  type : Option String
  enabled : Option Bool
  description : Option String
  connection : Option (List (String × String))
  settings : Option (List (String × String))
  tables : Option (List String)
  collections : Option (List String)
  indices : Option (List String)
  endpoints : Option (List (List (String × String)))
  headers : Option (List (String × String))
  schemas : Option (List String)

/-- One entry of the parsed YAML `servers` list. -/
structure RawServer where
  datasource : Option String
  port : Option Int
  log_level : Option String

/-- The parsed top-level YAML document consumed by `load_config`
(src/config_loader.py:51-99); yaml.dump / yaml.safe_load round-trip plain
mappings identically, so the exported text is represented by this document. -/
structure RawConfig where
  datacenter : Option (List (String × String))
  datasources : Option (List RawDatasource)
  servers : Option (List RawServer)
  management : Option (List (String × String))
  security : Option (List (String × String))
  logging : Option (List (String × String))
  monitoring : Option (List (String × String))

/-- Parsing of one datasource entry inside `load_config`
(src/config_loader.py:62-75): `ds_config['name']` and `ds_config['type']`
raise KeyError when absent; the other fields use `.get` with the shown
defaults; the six optional fields use `.get` with default None. -/
def loadDatasource (raw : RawDatasource) : Except String DatabaseConfig :=
  match raw.name with
  | none => .error "KeyError: name"
  | some name =>
    match raw.type with
    | none => .error "KeyError: type"
    | some ty =>
      .ok { name := name, type := ty, enabled := raw.enabled.getD true,
            description := raw.description.getD "",
            connection := raw.connection.getD [], settings := raw.settings.getD [],
            tables := raw.tables, collections := raw.collections,
            indices := raw.indices, endpoints := raw.endpoints,
            headers := raw.headers, schemas := raw.schemas }

/-- Parsing of one server entry inside `load_config`
(src/config_loader.py:80-86): `datasource` and `port` are required,
`log_level` defaults to "INFO". -/
def loadServer (raw : RawServer) : Except String ServerConfig :=
  match raw.datasource with
  | none => .error "KeyError: datasource"
  | some ds =>
    match raw.port with
    | none => .error "KeyError: port"
    | some port =>
      .ok { datasource := ds, port := port, log_level := raw.log_level.getD "INFO" }

/-- Sequencing of a fallible parser over a list: the first raised KeyError
aborts the surrounding `load_config` call. -/
def mapExcept {α β : Type} (f : α → Except String β) : List α → Except String (List β)
  | [] => .ok []
  | x :: xs =>
    match f x with
    | .error e => .error e
    | .ok y =>
      match mapExcept f xs with
      | .error e => .error e
      | .ok ys => .ok (y :: ys)

/-- Embedding of `ConfigLoader.load_config` (src/config_loader.py:51-99) on an
already-parsed YAML document: datasource entries are parsed, then server
entries, then the full configuration is assembled with `{}` defaults for the
remaining top-level blocks. -/
def load_config (raw : RawConfig) : Except String DataCenterConfig :=
  match mapExcept loadDatasource (raw.datasources.getD []) with
  | .error e => .error e
  | .ok datasources =>
    match mapExcept loadServer (raw.servers.getD []) with
    | .error e => .error e
    | .ok servers =>
      .ok { datacenter := raw.datacenter.getD [],
            datasources := datasources, servers := servers,
            management := raw.management.getD [],
            security := raw.security.getD [],
            logging := raw.logging.getD [],
            monitoring := raw.monitoring.getD [] }

/-- Python truthiness filter used by `export_config`'s dict spreads
(src/config_loader.py:253-258): `{'tables': ds.tables} if ds.tables else {}`
drops the key when the value is None or an empty collection. -/
def optTruthy {α : Type} : Option (List α) → Option (List α)
  | some l => if l.isEmpty then none else some l
  | none => none

/-- The dict built for one datasource by `export_config`
(src/config_loader.py:246-259): the six mandatory keys are always written;
each optional key is written only when its value is truthy. -/
def exportDatasource (ds : DatabaseConfig) : RawDatasource :=
  { name := some ds.name, type := some ds.type, enabled := some ds.enabled,
    description := some ds.description, connection := some ds.connection,
    settings := some ds.settings,
    tables := optTruthy ds.tables, collections := optTruthy ds.collections,
    indices := optTruthy ds.indices, endpoints := optTruthy ds.endpoints,
    headers := optTruthy ds.headers, schemas := optTruthy ds.schemas }

/-- The dict built for one server by `export_config`
(src/config_loader.py:262-269): all three keys are always written. -/
def exportServer (s : ServerConfig) : RawServer :=
  { datasource := some s.datasource, port := some s.port,
    log_level := some s.log_level }

/-- Embedding of the `format == 'yaml'` branch of `ConfigLoader.export_config`
(src/config_loader.py:237-284): the emitted document as it reads back through
yaml.safe_load.  All seven top-level keys are always written. -/
def export_config (config : DataCenterConfig) : RawConfig :=
  { datacenter := some config.datacenter,
    datasources := some (config.datasources.map exportDatasource),
    servers := some (config.servers.map exportServer),
    management := some config.management,
    security := some config.security,
    logging := some config.logging,
    monitoring := some config.monitoring }

/-- The `required_fields` table of `ConfigLoader.validate_config`
(src/config_loader.py:178-187). -/
def required_fields : List (String × List String) :=
  [("postgresql", ["host", "port", "database", "username", "password"]),
   ("mysql", ["host", "port", "database", "username", "password"]),
   ("sqlite", ["database_path"]),
   ("mongodb", ["host", "port", "database"]),
   ("redis", ["host", "port"]),
   ("elasticsearch", ["host", "port"]),
   ("rest_api", ["base_url"]),
   ("graphql", ["endpoint"])]

/-- Per-datasource step of `validate_config` (src/config_loader.py:167-192);
the state is (errors so far, names seen so far).  The error message strings
stand in for the logged Chinese messages; only their presence matters. -/
def validateDatasourceStep (st : List String × List String) (ds : DatabaseConfig) :
    List String × List String :=
  let errs1 := if ds.name ∈ st.2 then st.1 ++ ["duplicate datasource name: " ++ ds.name]
               else st.1
  let seen := st.2 ++ [ds.name]
  let errs2 := if ds.connection.isEmpty
               then errs1 ++ ["datasource missing connection: " ++ ds.name]
               else errs1
  let errs3 :=
    match dictGet ds.type required_fields with
    | some fields =>
      errs2 ++ (fields.filter (fun f => (dictGet f ds.connection).isNone)).map
        (fun f => "datasource " ++ ds.name ++ " missing required field: " ++ f)
    | none => errs2
  (errs3, seen)

/-- Per-server step of `validate_config` (src/config_loader.py:195-203); the
state is (errors so far, ports seen so far); `names` is the full set of
datasource names collected by the first loop. -/
def validateServerStep (names : List String) (st : List String × List Int)
    (s : ServerConfig) : List String × List Int :=
  let errs1 := if s.port ∈ st.2 then st.1 ++ ["server port conflict"] else st.1
  let ports := st.2 ++ [s.port]
  let errs2 := if s.datasource ∈ names then errs1
               else errs1 ++ ["server references unknown datasource: " ++ s.datasource]
  (errs2, ports)

/-- Embedding of `ConfigLoader.validate_config` (src/config_loader.py:155-205)
on an already-loaded configuration. -/
def validate_config (config : DataCenterConfig) : List String :=
  let dsResult := config.datasources.foldl validateDatasourceStep ([], [])
  (config.servers.foldl (validateServerStep dsResult.2) (dsResult.1, [])).1

/-- Embedding of `ConfigLoader.get_enabled_datasources`
(src/config_loader.py:111-116). -/
def get_enabled_datasources (config : DataCenterConfig) : List DatabaseConfig :=
  config.datasources.filter (fun ds => ds.enabled)

/-- The closed set of backend variants the factory can construct, one per
concrete `DatabaseServerBase` subclass (src/database_server_factory.py):
constructing one records which class was instantiated on which config. -/
inductive ServerVariant where
  | postgreSQLServer (config : DatabaseConfig)
  | mySQLServer (config : DatabaseConfig)
  | sqliteServer (config : DatabaseConfig)
  | mongoDBServer (config : DatabaseConfig)
  | redisServer (config : DatabaseConfig)
  | apiServer (config : DatabaseConfig)
deriving DecidableEq

/-- `DatabaseServerFactory.SERVER_MAPPING` (src/database_server_factory.py:447-454). -/
def SERVER_MAPPING : List (String × (DatabaseConfig → ServerVariant)) :=
  [("postgresql", ServerVariant.postgreSQLServer),
   ("mysql", ServerVariant.mySQLServer),
   ("sqlite", ServerVariant.sqliteServer),
   ("mongodb", ServerVariant.mongoDBServer),
   ("redis", ServerVariant.redisServer),
   ("rest_api", ServerVariant.apiServer)]

/-- Embedding of `DatabaseServerFactory.create_server`
(src/database_server_factory.py:456-463): `SERVER_MAPPING.get(config.type)`
followed by `raise ValueError(...)` on a missing entry, otherwise
`server_class(config)`. -/
def create_server (config : DatabaseConfig) : Except String ServerVariant :=
  match dictGet config.type SERVER_MAPPING with
  | none => .error ("Unsupported database type: " ++ config.type)
  | some server_class => .ok (server_class config)

/-- Forgetting the error of a fallible construction. -/
def exceptToOption {ε α : Type} : Except ε α → Option α
  | .ok a => some a
  | .error _ => none

/-- Embedding of the construction loop of
`DatabaseServerFactory.create_all_servers`
(src/database_server_factory.py:465-481) over the loaded configuration:
disabled entries are not attempted; a raised construction error is caught,
logged and that entry is skipped. -/
def create_all_servers (config : DataCenterConfig) : List ServerVariant :=
  config.datasources.foldl
    (fun servers ds =>
      if ds.enabled then
        match create_server ds with
        | .ok server => servers ++ [server]
        | .error _ => servers
      else servers)
    []

/-- A session whose every protocol call succeeds. -/
def goodSession : Session :=
  { list_resources := .ok ["res1"],
    read_resource := fun _ => .ok ("data", "text/plain"),
    call_tool := fun _ _ => .ok "tool-result" }

/-- A session whose every protocol call raises. -/
def badSession : Session :=
  { list_resources := .error "boom",
    read_resource := fun _ => .error "boom",
    call_tool := fun _ _ => .error "boom" }

/-- A session whose reads succeed but return an empty (falsy) content string. -/
def emptySession : Session :=
  { list_resources := .ok [],
    read_resource := fun _ => .ok ("", "text/plain"),
    call_tool := fun _ _ => .ok "" }

/-- A manager with no sessions and an empty cleanup scope. -/
def m0 : Manager := { sessions := [], exit_stack := [] }

/-- A manager with two healthy sessions around one whose calls raise. -/
def mMixed : Manager :=
  { sessions := [("ok1", goodSession), ("bad", badSession), ("ok2", goodSession)],
    exit_stack := [] }

/-- A manager whose only session returns empty content. -/
def mEmptyContent : Manager :=
  { sessions := [("a", emptySession)], exit_stack := [] }

/-- A manager with one healthy and one raising session. -/
def mTwo : Manager :=
  { sessions := [("a", goodSession), ("b", badSession)], exit_stack := [] }

/-- A launch spec whose three awaited steps all succeed. -/
def okSpec : LaunchSpec :=
  { spawn := .ok (), enter_session := .ok (), init := .ok (), session := goodSession }

/-- A launch spec that spawns but fails the initialize handshake. -/
def failSpec : LaunchSpec :=
  { spawn := .ok (), enter_session := .ok (), init := .error "handshake failed",
    session := goodSession }

/-- A validating sqlite datasource whose `tables` list is present but empty:
Python truthiness makes `export_config` drop the key. -/
def dsEmptyTables : DatabaseConfig :=
  { name := "db", type := "sqlite", enabled := true, description := "",
    connection := [("database_path", "/tmp/demo.db")], settings := [],
    tables := some [] }

/-- A configuration that validates with zero errors but whose one datasource
carries `tables = []`. -/
def cfgEmptyTables : DataCenterConfig :=
  { datacenter := [("name", "dc")], datasources := [dsEmptyTables], servers := [],
    management := [], security := [], logging := [], monitoring := [] }

/-- What `cfgEmptyTables` becomes after an export/load round trip: the empty
`tables` list comes back as absent. -/
def cfgEmptyTablesReloaded : DataCenterConfig :=
  { cfgEmptyTables with datasources := [{ dsEmptyTables with tables := none }] }

/-- A validating sqlite datasource with a non-empty optional field. -/
def dsGood : DatabaseConfig :=
  { name := "db", type := "sqlite", enabled := true, description := "demo",
    connection := [("database_path", "/tmp/demo.db")], settings := [("timeout", "30")],
    tables := some ["users"] }

/-- A configuration that validates with zero errors and survives the round trip. -/
def cfgGood : DataCenterConfig :=
  { datacenter := [("name", "dc")], datasources := [dsGood],
    servers := [{ datasource := "db", port := 8001, log_level := "INFO" }],
    management := [], security := [], logging := [], monitoring := [] }

/-- A datasource whose type tag is outside the factory registry. -/
def dsUnknownType : DatabaseConfig :=
  { name := "x", type := "unsupported_tag", enabled := true, description := "",
    connection := [], settings := [] }

/-- Inserting a key that is not yet bound appends the binding. -/
theorem dictInsert_append {α : Type} (k : String) (v : α) :
    ∀ (l : List (String × α)), k ∉ l.map Prod.fst → dictInsert k v l = l ++ [(k, v)]
  | [], _ => rfl
  | (k1, v1) :: rest, h => by
    have h1 : ¬ k1 = k := fun he => h (by simp [he])
    have h2 : k ∉ rest.map Prod.fst := fun hm => h (by simp [hm])
    simp [dictInsert, h1, dictInsert_append k v rest h2]

/-- A dict-building fold over entries with pairwise distinct keys, inserting
`f p` under key `p.1` when `f p` is defined and skipping the entry otherwise,
appends exactly the defined entries in iteration order. -/
theorem foldl_insertOpt {α β : Type}
    (step : List (String × β) → (String × α) → List (String × β))
    (f : (String × α) → Option β)
    (hnone : ∀ acc p, f p = none → step acc p = acc)
    (hsome : ∀ acc p v, f p = some v → step acc p = dictInsert p.1 v acc) :
    ∀ (l : List (String × α)) (acc : List (String × β)),
      (l.map Prod.fst).Nodup →
      (∀ k, k ∈ l.map Prod.fst → k ∉ acc.map Prod.fst) →
      l.foldl step acc = acc ++ l.filterMap (fun p => (f p).map (fun v => (p.1, v))) := by
  intro l
  induction l with
  | nil => intro acc _ _; simp
  | cons p rest ih =>
    intro acc hnd hacc
    simp only [List.map_cons, List.nodup_cons] at hnd
    simp only [List.foldl_cons, List.filterMap_cons]
    cases hf : f p with
    | none =>
      rw [hnone acc p hf]
      rw [ih acc hnd.2 (fun k hk => hacc k (by simp [hk]))]
      simp [hf]
    | some v =>
      rw [hsome acc p v hf]
      rw [dictInsert_append p.1 v acc (hacc p.1 (by simp))]
      rw [ih (acc ++ [(p.1, v)]) hnd.2 ?_]
      · simp [hf]
      · intro k hk
        simp only [List.map_append, List.mem_append]
        intro hmem
        rcases hmem with hmem | hmem
        · exact hacc k (by simp [hk]) hmem
        · simp only [List.map_cons, List.map_nil, List.mem_singleton] at hmem
          exact hnd.1 (hmem ▸ hk)

/-- A list-building fold that appends `f x` when it is defined and skips the
element otherwise collects exactly the defined values in order. -/
theorem foldl_append_filterMap {α β : Type} (step : List β → α → List β)
    (f : α → Option β)
    (hnone : ∀ acc x, f x = none → step acc x = acc)
    (hsome : ∀ acc x y, f x = some y → step acc x = acc ++ [y]) :
    ∀ (l : List α) (acc : List β), l.foldl step acc = acc ++ l.filterMap f := by
  intro l
  induction l with
  | nil => intro acc; simp
  | cons x xs ih =>
    intro acc
    simp only [List.foldl_cons, List.filterMap_cons]
    cases hf : f x with
    | none => rw [hnone acc x hf, ih acc]
    | some y => rw [hsome acc x y hf, ih (acc ++ [y])]; simp

/-- `filterMap` of an everywhere-defined function is `map`. -/
theorem filterMap_some_map {α β : Type} (g : α → β) (l : List α) :
    l.filterMap (fun x => some (g x)) = l.map g := by
  induction l <;> simp_all

/-- C1: as stated the claim is false — when a session's list-resources call
raises, `list_all_resources` stores nothing under that session's name: here
"bad" is registered but the returned mapping has entries only for the two
sessions whose calls succeeded. -/
theorem c1_list_all_resources_counterexample :
    (dictGet "bad" mMixed.sessions).isSome = true ∧
    dictGet "bad" (list_all_resources mMixed).1 = none ∧
    (list_all_resources mMixed).1.map Prod.fst = ["ok1", "ok2"] :=
  ⟨rfl, rfl, rfl⟩

/-- C1 (amended): for session names without duplicates, `list_all_resources`
returns one entry per session whose list-resources call succeeds, in
iteration order; a session whose call fails is omitted from the result, and a
failure on one source does not stop iteration over the remaining sources. -/
theorem c1_list_all_resources_amended (m : Manager)
    (hnd : (m.sessions.map Prod.fst).Nodup) :
    (list_all_resources m).1
      = m.sessions.filterMap (fun p =>
          match p.2.list_resources with
          | .ok resources => some (p.1, resources)
          | .error _ => none) := by
  have key := foldl_insertOpt
    (fun all_resources p =>
      match p.2.list_resources with
      | .ok resources => dictInsert p.1 resources all_resources
      | .error _ => all_resources)
    (fun p =>
      match p.2.list_resources with
      | .ok resources => some resources
      | .error _ => none)
    (fun acc p h => by
      cases hc : p.2.list_resources <;> simp [hc] at h ⊢)
    (fun acc p v h => by
      cases hc : p.2.list_resources <;> simp [hc] at h ⊢
      rw [h])
    m.sessions [] hnd (fun k _ => by simp)
  have hfun : (fun (p : String × Session) =>
        ((match p.2.list_resources with
          | .ok resources => some resources
          | .error _ => none) : Option (List String)).map (fun v => (p.1, v)))
      = (fun p =>
          match p.2.list_resources with
          | .ok resources => some (p.1, resources)
          | .error _ => none) := by
    funext p
    cases hc : p.2.list_resources <;> simp [hc]
  calc (list_all_resources m).1
      = m.sessions.foldl
          (fun all_resources p =>
            match p.2.list_resources with
            | .ok resources => dictInsert p.1 resources all_resources
            | .error _ => all_resources) [] := rfl
    _ = _ := by rw [key, hfun]; simp

/-- C1 (witness): the amended theorem applied to the mixed three-session
manager, whose session names are pairwise distinct. -/
theorem c1_list_all_resources_amended_witness :
    (mMixed.sessions.map Prod.fst).Nodup ∧
    (list_all_resources mMixed).1
      = mMixed.sessions.filterMap (fun p =>
          match p.2.list_resources with
          | .ok resources => some (p.1, resources)
          | .error _ => none) :=
  ⟨by decide, c1_list_all_resources_amended mMixed (by decide)⟩

/-- C2: as stated the claim is false — a source whose lookup succeeds but
returns an empty (Python-falsy) content string is omitted from the
cross-source result, because the loop keeps a result only `if content:`. -/
theorem c2_cross_source_query_counterexample :
    (query_resource mEmptyContent "a" "u").1 = some "" ∧
    (cross_source_query mEmptyContent [("a", "u")]).1 = [] :=
  ⟨rfl, rfl⟩

/-- C2 (amended): for query keys without duplicates, `cross_source_query`
returns exactly the sub-mapping of pairs whose `query_resource` lookup
returned truthy content: sources whose lookup returns absent, and sources
whose lookup succeeds with empty content, are omitted entirely (never present
mapped to null); every source whose lookup returns non-empty content appears
with that content. -/
theorem c2_cross_source_query_amended (m : Manager)
    (queries : List (String × String))
    (hnd : (queries.map Prod.fst).Nodup) :
    (cross_source_query m queries).1
      = queries.filterMap (fun q =>
          match (query_resource m q.1 q.2).1 with
          | some content => if content = "" then none else some (q.1, content)
          | none => none) := by
  have key := foldl_insertOpt
    (fun results q =>
      match (query_resource m q.1 q.2).1 with
      | some content => if content = "" then results else dictInsert q.1 content results
      | none => results)
    (fun q =>
      match (query_resource m q.1 q.2).1 with
      | some content => if content = "" then none else some content
      | none => none)
    (fun acc q h => by
      cases hc : (query_resource m q.1 q.2).1 with
      | none => simp [hc]
      | some content =>
        by_cases hce : content = "" <;> simp [hc, hce] at h ⊢)
    (fun acc q v h => by
      cases hc : (query_resource m q.1 q.2).1 with
      | none => simp [hc] at h
      | some content =>
        by_cases hce : content = "" <;> simp [hc, hce] at h ⊢
        rw [h])
    queries [] hnd (fun k _ => by simp)
  have hfun : (fun (q : String × String) =>
        ((match (query_resource m q.1 q.2).1 with
          | some content => if content = "" then none else some content
          | none => none) : Option String).map (fun v => (q.1, v)))
      = (fun q =>
          match (query_resource m q.1 q.2).1 with
          | some content => if content = "" then none else some (q.1, content)
          | none => none) := by
    funext q
    cases hc : (query_resource m q.1 q.2).1 with
    | none => simp [hc]
    | some content => by_cases hce : content = "" <;> simp [hc, hce]
  calc (cross_source_query m queries).1
      = queries.foldl
          (fun results q =>
            match (query_resource m q.1 q.2).1 with
            | some content =>
              if content = "" then results else dictInsert q.1 content results
            | none => results) [] := rfl
    _ = _ := by rw [key, hfun]; simp

/-- C2 (witness): the amended theorem applied to a two-query batch against a
manager with one succeeding and one raising session. -/
theorem c2_cross_source_query_amended_witness :
    (([("a", "u"), ("b", "u")] : List (String × String)).map Prod.fst).Nodup ∧
    (cross_source_query mTwo [("a", "u"), ("b", "u")]).1
      = ([("a", "u"), ("b", "u")] : List (String × String)).filterMap (fun q =>
          match (query_resource mTwo q.1 q.2).1 with
          | some content => if content = "" then none else some (q.1, content)
          | none => none) :=
  ⟨by decide, c2_cross_source_query_amended mTwo [("a", "u"), ("b", "u")] (by decide)⟩

/-- C3: for session names without duplicates, the modelled `health_check`
returns one entry per session, "unhealthy" exactly for the sessions whose
capability probe raises and "healthy" for those whose probe succeeds, and —
being a total function — no exception escapes the call. -/
theorem c3_health_check_spec (m : Manager)
    (hnd : (m.sessions.map Prod.fst).Nodup) :
    (health_check m).1
      = m.sessions.map (fun p =>
          (p.1, match p.2.list_resources with
                | .ok _ => "healthy"
                | .error _ => "unhealthy")) := by
  have key := foldl_insertOpt
    (fun health p =>
      match p.2.list_resources with
      | .ok _ => dictInsert p.1 "healthy" health
      | .error _ => dictInsert p.1 "unhealthy" health)
    (fun p =>
      some (match p.2.list_resources with
            | .ok _ => "healthy"
            | .error _ => "unhealthy"))
    (fun acc p h => Option.noConfusion h)
    (fun acc p v h => by
      have hv := Option.some.inj h
      cases hc : p.2.list_resources <;> simp [hc] at hv ⊢ <;> rw [hv])
    m.sessions [] hnd (fun k _ => by simp)
  calc (health_check m).1
      = m.sessions.foldl
          (fun health p =>
            match p.2.list_resources with
            | .ok _ => dictInsert p.1 "healthy" health
            | .error _ => dictInsert p.1 "unhealthy" health) [] := rfl
    _ = _ := by
        rw [key]
        simp only [Option.map_some, List.nil_append]
        exact filterMap_some_map _ m.sessions

/-- C3 (witness): the modelled health check on a manager with one healthy and
one raising session. -/
theorem c3_health_check_spec_witness :
    (mTwo.sessions.map Prod.fst).Nodup ∧
    (health_check mTwo).1
      = mTwo.sessions.map (fun p =>
          (p.1, match p.2.list_resources with
                | .ok _ => "healthy"
                | .error _ => "unhealthy")) :=
  ⟨by decide, c3_health_check_spec mTwo (by decide)⟩

/-- The truthiness filter of `export_config` is the identity except on a
present-but-empty collection. -/
theorem optTruthy_of_ne_nil {α : Type} (o : Option (List α)) (h : o ≠ some []) :
    optTruthy o = o := by
  cases o with
  | none => rfl
  | some l =>
    cases l with
    | nil => exact absurd rfl h
    | cons a t => rfl

/-- Exporting and re-parsing one datasource entry is the identity when none
of its optional fields is a present-but-empty collection. -/
theorem loadDatasource_export (ds : DatabaseConfig)
    (h1 : ds.tables ≠ some []) (h2 : ds.collections ≠ some [])
    (h3 : ds.indices ≠ some []) (h4 : ds.endpoints ≠ some [])
    (h5 : ds.headers ≠ some []) (h6 : ds.schemas ≠ some []) :
    loadDatasource (exportDatasource ds) = .ok ds := by
  have e1 := optTruthy_of_ne_nil ds.tables h1
  have e2 := optTruthy_of_ne_nil ds.collections h2
  have e3 := optTruthy_of_ne_nil ds.indices h3
  have e4 := optTruthy_of_ne_nil ds.endpoints h4
  have e5 := optTruthy_of_ne_nil ds.headers h5
  have e6 := optTruthy_of_ne_nil ds.schemas h6
  calc loadDatasource (exportDatasource ds)
      = .ok { ds with
          tables := optTruthy ds.tables,
          collections := optTruthy ds.collections,
          indices := optTruthy ds.indices,
          endpoints := optTruthy ds.endpoints,
          headers := optTruthy ds.headers,
          schemas := optTruthy ds.schemas } := rfl
    _ = .ok ds := by rw [e1, e2, e3, e4, e5, e6]

/-- Exporting and re-parsing one server entry is the identity. -/
theorem loadServer_export (s : ServerConfig) :
    loadServer (exportServer s) = .ok s := rfl

/-- `mapExcept` over an exported list succeeds entry-wise. -/
theorem mapExcept_map_ok {α β : Type} (f : α → Except String β) (g : β → α)
    (l : List β) (h : ∀ x ∈ l, f (g x) = .ok x) :
    mapExcept f (l.map g) = .ok l := by
  induction l with
  | nil => rfl
  | cons x xs ih =>
    simp only [List.map_cons, mapExcept]
    rw [h x (List.mem_cons_self x xs),
        ih (fun y hy => h y (List.mem_cons_of_mem x hy))]

/-- C4: as stated the claim is false — `cfgEmptyTables` validates with zero
errors, yet exporting and reloading it does not return the original: its
present-but-empty `tables` list is dropped by the export's truthiness test
and reloads as absent. -/
theorem c4_round_trip_counterexample :
    validate_config cfgEmptyTables = [] ∧
    load_config (export_config cfgEmptyTables) = .ok cfgEmptyTablesReloaded ∧
    cfgEmptyTablesReloaded ≠ cfgEmptyTables :=
  ⟨rfl, rfl, by decide⟩

/-- C4 (amended): for every configuration that validates with zero errors and
in which no optional datasource field (tables, collections, indices,
endpoints, headers, schemas) is a present-but-empty collection, exporting the
configuration and reloading the exported document yields a configuration
equal field-for-field to the original. -/
theorem c4_round_trip_amended (config : DataCenterConfig)
    (_hval : validate_config config = [])
    (hopt : ∀ ds ∈ config.datasources,
      ds.tables ≠ some [] ∧ ds.collections ≠ some [] ∧ ds.indices ≠ some [] ∧
      ds.endpoints ≠ some [] ∧ ds.headers ≠ some [] ∧ ds.schemas ≠ some []) :
    load_config (export_config config) = .ok config := by
  have hds : mapExcept loadDatasource (config.datasources.map exportDatasource)
      = .ok config.datasources :=
    mapExcept_map_ok _ _ _ (fun ds hmem =>
      loadDatasource_export ds (hopt ds hmem).1 (hopt ds hmem).2.1
        (hopt ds hmem).2.2.1 (hopt ds hmem).2.2.2.1
        (hopt ds hmem).2.2.2.2.1 (hopt ds hmem).2.2.2.2.2)
  have hsrv : mapExcept loadServer (config.servers.map exportServer)
      = .ok config.servers :=
    mapExcept_map_ok _ _ _ (fun s _ => loadServer_export s)
  show (match mapExcept loadDatasource (config.datasources.map exportDatasource) with
        | .error e => .error e
        | .ok datasources =>
          match mapExcept loadServer (config.servers.map exportServer) with
          | .error e => .error e
          | .ok servers =>
            .ok { datacenter := config.datacenter,
                  datasources := datasources, servers := servers,
                  management := config.management,
                  security := config.security,
                  logging := config.logging,
                  monitoring := config.monitoring })
      = Except.ok config
  rw [hds, hsrv]

/-- C4 (witness): the amended round trip on a concrete configuration that
validates with zero errors and has a non-empty `tables` field. -/
theorem c4_round_trip_amended_witness :
    validate_config cfgGood = [] ∧
    load_config (export_config cfgGood) = .ok cfgGood :=
  ⟨rfl, c4_round_trip_amended cfgGood rfl (by decide)⟩

/-- C5: `query_resource` returns absent both when the source name is not a
key of the session map and when the named session's read raises, and
`call_tool` obeys the same routing and failure-isolation contract; both are
total functions, so neither raises past the call. -/
theorem c5_targeted_ops (m : Manager) (source uri tool : String)
    (args : List (String × String)) :
    (dictGet source m.sessions = none → (query_resource m source uri).1 = none)
    ∧ (∀ s e, dictGet source m.sessions = some s →
        s.read_resource uri = .error e → (query_resource m source uri).1 = none)
    ∧ (dictGet source m.sessions = none → (call_tool m source tool args).1 = none)
    ∧ (∀ s e, dictGet source m.sessions = some s →
        s.call_tool tool args = .error e → (call_tool m source tool args).1 = none) := by
  refine ⟨?_, ?_, ?_, ?_⟩
  · intro h
    unfold query_resource
    rw [h]
  · intro s e hs he
    unfold query_resource
    rw [hs]
    simp only []
    rw [he]
  · intro h
    unfold call_tool
    rw [h]
  · intro s e hs he
    unfold call_tool
    rw [hs]
    simp only []
    rw [he]

/-- C5 (witness): the contract applied to a manager whose session "b" raises
on every call, probed both at the unknown name "missing" and at "b". -/
theorem c5_targeted_ops_witness :
    (query_resource mTwo "missing" "u").1 = none
    ∧ (query_resource mTwo "b" "u").1 = none
    ∧ (call_tool mTwo "missing" "t" []).1 = none
    ∧ (call_tool mTwo "b" "t" []).1 = none :=
  ⟨(c5_targeted_ops mTwo "missing" "u" "t" []).1 rfl,
   (c5_targeted_ops mTwo "b" "u" "t" []).2.1 badSession "boom" rfl rfl,
   (c5_targeted_ops mTwo "missing" "u" "t" []).2.2.1 rfl,
   (c5_targeted_ops mTwo "b" "u" "t" []).2.2.2 badSession "boom" rfl rfl⟩

/-- C6: `add_data_source` returns true and registers the session under the
given name exactly when the spawn, the session-context entry and the
protocol-initialize handshake all succeed; on any failure it returns false
with the session map unchanged; once the spawn succeeded, the process+pipes
context is in the Manager's cleanup scope in the final state, whatever
happens afterwards; and being a total function it never raises. -/
theorem c6_add_data_source_contract (m : Manager) (name : String)
    (spec : LaunchSpec) :
    ((add_data_source m name spec).1 = true ↔
      exOk spec.spawn = true ∧ exOk spec.enter_session = true ∧ exOk spec.init = true)
    ∧ ((add_data_source m name spec).1 = true →
        (add_data_source m name spec).2.sessions
          = dictInsert name spec.session m.sessions)
    ∧ ((add_data_source m name spec).1 = false →
        (add_data_source m name spec).2.sessions = m.sessions)
    ∧ (exOk spec.spawn = true →
        Resource.pipes name ∈ (add_data_source m name spec).2.exit_stack) := by
  rcases spec with ⟨sp, en, ini, sess⟩
  cases sp <;> cases en <;> cases ini <;>
    simp [add_data_source, exOk]

/-- C6 (witness): the contract applied to one launch whose three steps all
succeed and one whose handshake fails after a successful spawn. -/
theorem c6_add_data_source_contract_witness :
    (add_data_source m0 "db" okSpec).1 = true
    ∧ (add_data_source m0 "db" okSpec).2.sessions
        = dictInsert "db" okSpec.session m0.sessions
    ∧ (add_data_source m0 "api" failSpec).2.sessions = m0.sessions
    ∧ Resource.pipes "api" ∈ (add_data_source m0 "api" failSpec).2.exit_stack :=
  ⟨(c6_add_data_source_contract m0 "db" okSpec).1.mpr ⟨rfl, rfl, rfl⟩,
   (c6_add_data_source_contract m0 "db" okSpec).2.1 rfl,
   (c6_add_data_source_contract m0 "api" failSpec).2.2.1 rfl,
   (c6_add_data_source_contract m0 "api" failSpec).2.2.2 rfl⟩

/-- C7: `create_server` fails with an explicit unsupported-type error and
constructs no variant whenever the config's type tag is not in the fixed
registry, and for a registered tag it constructs the variant of exactly that
tag's class; there is no silent fallback. -/
theorem c7_create_server_dispatch (config : DatabaseConfig) :
    (dictGet config.type SERVER_MAPPING = none →
      create_server config = .error ("Unsupported database type: " ++ config.type))
    ∧ (∀ server_class, dictGet config.type SERVER_MAPPING = some server_class →
        create_server config = .ok (server_class config)) := by
  constructor
  · intro h
    unfold create_server
    rw [h]
  · intro server_class h
    unfold create_server
    rw [h]

/-- C7 (witness): the dispatch applied to the unsupported tag
"unsupported_tag" and to the registered tag "sqlite". -/
theorem c7_create_server_dispatch_witness :
    create_server dsUnknownType
      = .error ("Unsupported database type: " ++ dsUnknownType.type)
    ∧ create_server dsGood = .ok (ServerVariant.sqliteServer dsGood) :=
  ⟨(c7_create_server_dispatch dsUnknownType).1 rfl,
   (c7_create_server_dispatch dsGood).2 ServerVariant.sqliteServer rfl⟩

/-- C8: `create_all_servers` returns exactly one constructed variant per
enabled entry whose construction succeeds, in configuration order; disabled
entries are never attempted and a single enabled entry whose construction
fails is skipped without aborting the remaining entries. -/
theorem c8_create_all_servers_enabled (config : DataCenterConfig) :
    create_all_servers config
      = config.datasources.filterMap (fun ds =>
          if ds.enabled then exceptToOption (create_server ds) else none) := by
  have key := foldl_append_filterMap
    (fun servers ds =>
      if ds.enabled then
        match create_server ds with
        | .ok server => servers ++ [server]
        | .error _ => servers
      else servers)
    (fun ds => if ds.enabled then exceptToOption (create_server ds) else none)
    (fun acc ds h => by
      by_cases hen : ds.enabled
      · cases hc : create_server ds <;> simp [hen, hc, exceptToOption] at h ⊢
      · simp [hen])
    (fun acc ds y h => by
      by_cases hen : ds.enabled
      · cases hc : create_server ds <;> simp [hen, hc, exceptToOption] at h ⊢
        rw [h]
      · simp [hen] at h)
    config.datasources []
  calc create_all_servers config
      = config.datasources.foldl
          (fun servers ds =>
            if ds.enabled then
              match create_server ds with
              | .ok server => servers ++ [server]
              | .error _ => servers
            else servers) [] := rfl
    _ = _ := by rw [key]; simp

/-- C9: as stated the claim is false — with two registered sessions the
fan-out loop's trace completes the first source's call before issuing the
second source's call, so it does not have the issue-all-then-join shape the
concurrency contract requires. -/
theorem c9_fanout_serial_counterexample :
    ¬ concurrentShape (serialTrace mTwo.sessions) := by
  unfold concurrentShape serialTrace
  decide

/-- C9 (amended): every fan-out loop issues its per-source calls serially —
the trace is the concatenation of one issue-then-complete block per source in
iteration order, each call awaited to completion before the next source's
call is issued. -/
theorem c9_fanout_serial_amended (m : Manager)
    (queries : List (String × String)) :
    serialTrace m.sessions
      = (m.sessions.map (fun p => [Event.issue p.1, Event.complete p.1])).flatten
    ∧ serialQueryTrace queries
      = (queries.map (fun q => [Event.issue q.1, Event.complete q.1])).flatten := by
  constructor
  · have hgen : ∀ l : List (String × Session),
        serialTrace l = (l.map (fun p => [Event.issue p.1, Event.complete p.1])).flatten := by
      intro l
      induction l with
      | nil => rfl
      | cons p rest ih => simp [serialTrace, ih]
    exact hgen m.sessions
  · have hgen : ∀ l : List (String × String),
        serialQueryTrace l = (l.map (fun q => [Event.issue q.1, Event.complete q.1])).flatten := by
      intro l
      induction l with
      | nil => rfl
      | cons q rest ih => simp [serialQueryTrace, ih]
    exact hgen queries

/-- C10: the read-side operations `list_all_resources`, `query_resource`,
`call_tool` and `cross_source_query` leave the sessions map unchanged — no
key is added, removed or rebound — whatever the per-session outcomes are. -/
theorem c10_read_ops_frame (m : Manager) (source uri tool : String)
    (args : List (String × String)) (queries : List (String × String)) :
    (list_all_resources m).2.sessions = m.sessions
    ∧ (query_resource m source uri).2.sessions = m.sessions
    ∧ (call_tool m source tool args).2.sessions = m.sessions
    ∧ (cross_source_query m queries).2.sessions = m.sessions :=
  ⟨rfl, rfl, rfl, rfl⟩

end Mcp
